import Mathlib

/-!
Verification of the AusTreeCalc statics engine.

This file gives a shallow embedding, over the exact real numbers, of the
statics calculation engine of `tools/aus_tree_calc_standalone.py`:
the species catalog, the defect strength factor, the single-point
calculation (`calculate_single`), the wind-to-failure estimator, the
residual wall fraction, and the two curve builders the claims mention.
Python floats are modelled as real numbers; the float value
`float("inf")` returned for a zero-stress safety factor is modelled by
the top element of `EReal`.
-/

namespace AusTreeCalc

noncomputable section

/-- Air density constant, kg/m3 (`AIR_DENSITY = 1.2` in the source). -/
def AIR_DENSITY : ℝ := 1.2

/-- Species preset record, mirroring the `SpeciesPreset` dataclass. -/
structure SpeciesPreset where
  id : String
  name : String
  fb_green_mpa : ℝ
  drag_coefficient : ℝ
  crown_shape_factor : ℝ
  default_fullness : ℝ

/-- The second catalog entry, used by the concrete scenarios of the spec. -/
def euc_typical : SpeciesPreset :=
  { id := "euc_typical"
    name := "Eucalypt – Typical Street Tree"
    fb_green_mpa := 35
    drag_coefficient := 0.25
    crown_shape_factor := 0.7
    default_fullness := 0.9 }

/-- The fixed species catalog (`SPECIES_PRESETS` in the source). -/
def SPECIES_PRESETS : List SpeciesPreset :=
  [ { id := "euc_high", name := "Eucalypt – High Strength (ironbark / spotted gum type)"
      fb_green_mpa := 50, drag_coefficient := 0.25, crown_shape_factor := 0.7, default_fullness := 0.9 }
  , euc_typical
  , { id := "broadleaf_deciduous", name := "Broadleaf – Plane / Elm / Oak"
      fb_green_mpa := 28, drag_coefficient := 0.30, crown_shape_factor := 0.75, default_fullness := 0.95 }
  , { id := "conifer_softwood", name := "Conifer – Pine / Cypress"
      fb_green_mpa := 20, drag_coefficient := 0.35, crown_shape_factor := 0.8, default_fullness := 1 }
  , { id := "araucaria", name := "Araucaria – Norfolk Island Pine"
      fb_green_mpa := 24, drag_coefficient := 0.30, crown_shape_factor := 0.7, default_fullness := 0.95 }
  , { id := "unknown_hardwood", name := "Unknown Hardwood (broadleaf)"
      fb_green_mpa := 25, drag_coefficient := 0.28, crown_shape_factor := 0.7, default_fullness := 0.9 }
  , { id := "unknown_softwood", name := "Unknown Softwood / Evergreen"
      fb_green_mpa := 18, drag_coefficient := 0.33, crown_shape_factor := 0.75, default_fullness := 0.95 } ]

/-- Result record of the single-point calculation (`CalcResult` dataclass).
The safety factor lives in `EReal` because the source returns the float
positive infinity when the bending stress is not positive. -/
structure CalcResult where
  safety_factor : EReal
  bending_stress_mpa : ℝ
  q_pa : ℝ
  wind_force_n : ℝ
  bending_moment_nm : ℝ

/-- Defect strength factor (`compute_defect_strength_factor` in the source):
start at 1.0, multiply a fixed penalty per true flag, then clamp below at
0.3 and above at 1.0, in that order. -/
def compute_defect_strength_factor (bracket_fungi cavity_decay cracks basal_decay union : Bool) : ℝ :=
  let k0 : ℝ := 1
  let k1 := if bracket_fungi then k0 * 0.8 else k0
  let k2 := if cavity_decay then k1 * 0.8 else k1
  let k3 := if cracks then k2 * 0.9 else k2
  let k4 := if basal_decay then k3 * 0.8 else k3
  let k5 := if union then k4 * 0.9 else k4
  let k6 := if k5 < 0.3 then 0.3 else k5
  if 1 < k6 then 1 else k6

/-- Penalty factors named by the spec for the defect flags that are set,
as a list; used only to state that the defect factor is the clamped
product of the penalties independently of the order they are applied in. -/
def spec_defect_penalties (bracket_fungi cavity_decay cracks basal_decay union : Bool) : List ℝ :=
  (if bracket_fungi then [0.8] else []) ++ (if cavity_decay then [0.8] else []) ++
    (if cracks then [0.9] else []) ++ (if basal_decay then [0.8] else []) ++
    (if union then [0.9] else [])

/-- The clamped inner cavity diameter converted to meters, as computed at
the top of `calculate_single` (lines 215-222 of the source): a supplied
cavity is used only when positive, and a cavity at least the trunk
diameter is clamped to 99 percent of the trunk diameter. -/
def d_inner_clamped (dbh_cm : ℝ) (cavity_inner_cm : Option ℝ) : ℝ :=
  match cavity_inner_cm with
  | none => 0
  | some c => if 0 < c then (if dbh_cm ≤ c then dbh_cm * 0.99 else c) / 100 else 0

/-- Section modulus W (lines 238-241 of the source): hollow circular
formula when a positive inner diameter is present, else the solid one. -/
def section_modulus (dbh_cm : ℝ) (cavity_inner_cm : Option ℝ) : ℝ :=
  let d_outer := dbh_cm / 100
  let d_inner := d_inner_clamped dbh_cm cavity_inner_cm
  if 0 < d_inner then Real.pi * (d_outer ^ 4 - d_inner ^ 4) / (32 * d_outer)
  else Real.pi * d_outer ^ 3 / 32

/-- Dynamic wind pressure `q = site_factor * 0.5 * AIR_DENSITY * V * V`. -/
def dynamic_pressure (site_factor wind_ms : ℝ) : ℝ :=
  site_factor * 0.5 * AIR_DENSITY * wind_ms * wind_ms

/-- Effective crown area: plan area times shape factor times clamped
fullness (lines 227-232 of the source). -/
def crown_area (species : SpeciesPreset) (crown_diameter_m : ℝ) (fullness_override : Option ℝ) : ℝ :=
  Real.pi * (crown_diameter_m / 2) * (crown_diameter_m / 2) * species.crown_shape_factor *
    max 0.1 (min 1 (fullness_override.getD species.default_fullness))

/-- The single-point calculation (`calculate_single` in the source).
`sigma_mpa` combines the source's `sigma_pa = m_wind / W` and
`sigma_mpa = sigma_pa / 1e6`. -/
def calculate_single (species : SpeciesPreset) (dbh_cm height_m crown_diameter_m design_wind_ms : ℝ)
    (cavity_inner_cm fullness_override : Option ℝ) (site_factor k_defect : ℝ) : CalcResult :=
  let q := dynamic_pressure site_factor design_wind_ms
  let area := crown_area species crown_diameter_m fullness_override
  let wind_force := q * species.drag_coefficient * area
  let h_eff := 0.66 * height_m
  let m_wind := wind_force * h_eff
  let W := section_modulus dbh_cm cavity_inner_cm
  let sigma_mpa := m_wind / W / 1e6
  let effective_fb := species.fb_green_mpa * k_defect
  { safety_factor := if 0 < sigma_mpa then ((effective_fb / sigma_mpa : ℝ) : EReal) else ⊤
    bending_stress_mpa := sigma_mpa
    q_pa := q
    wind_force_n := wind_force
    bending_moment_nm := m_wind }

/-- Wind-to-failure estimator (`estimate_wind_to_failure` in the source):
undefined when the design safety factor is non-finite or nonpositive,
otherwise `V_design * sqrt(SF_design)`. -/
def estimate_wind_to_failure (species : SpeciesPreset) (dbh_cm height_m crown_diameter_m design_wind_ms : ℝ)
    (cavity_inner_cm fullness_override : Option ℝ) (site_factor k_defect : ℝ) : Option ℝ :=
  if (calculate_single species dbh_cm height_m crown_diameter_m design_wind_ms cavity_inner_cm
        fullness_override site_factor k_defect).safety_factor = ⊤ ∨
     (calculate_single species dbh_cm height_m crown_diameter_m design_wind_ms cavity_inner_cm
        fullness_override site_factor k_defect).safety_factor = ⊥ ∨
     (calculate_single species dbh_cm height_m crown_diameter_m design_wind_ms cavity_inner_cm
        fullness_override site_factor k_defect).safety_factor ≤ 0 then
    none
  else
    some (design_wind_ms * Real.sqrt (calculate_single species dbh_cm height_m crown_diameter_m
      design_wind_ms cavity_inner_cm fullness_override site_factor k_defect).safety_factor.toReal)

/-- Residual wall fraction (`residual_wall_fraction` in the source). -/
def residual_wall_fraction (dbh_cm : ℝ) (cavity_inner_cm : Option ℝ) : ℝ :=
  if dbh_cm ≤ 0 then 1
  else
    match cavity_inner_cm with
    | none => 1
    | some c =>
      if c ≤ 0 then 1
      else max 0 (min 1 ((dbh_cm - (if dbh_cm ≤ c then dbh_cm * 0.99 else c)) / dbh_cm))

/-- Curve of safety factor versus wind speed (`build_sf_vs_wind_curve`):
empty when the design wind speed is nonpositive, otherwise 12 evenly
spaced samples between the computed bounds. A real-valued wind-to-failure
is always finite, so the source's isfinite guard is just positivity here. -/
def build_sf_vs_wind_curve (species : SpeciesPreset) (dbh_cm height_m crown_diameter_m design_wind_ms : ℝ)
    (cavity_inner_cm fullness_override : Option ℝ) (site_factor k_defect : ℝ)
    (wind_to_failure : Option ℝ) : List ℝ × List EReal :=
  if design_wind_ms ≤ 0 then ([], [])
  else
    let min_v := max 5 (design_wind_ms * 0.5)
    let max_v0 := design_wind_ms * 1.8
    let max_v1 :=
      match wind_to_failure with
      | some w => if 0 < w ∧ max_v0 < w * 1.1 then w * 1.1 else max_v0
      | none => max_v0
    let max_v := if max_v1 ≤ min_v then min_v + 5 else max_v1
    ((List.range 12).map fun i => min_v + (max_v - min_v) * (i : ℝ) / (12 - 1),
     (List.range 12).map fun i =>
       (calculate_single species dbh_cm height_m crown_diameter_m
         (min_v + (max_v - min_v) * (i : ℝ) / (12 - 1))
         cavity_inner_cm fullness_override site_factor k_defect).safety_factor)

/-- Safety factor at a simulated residual wall percent: the body of the
sampling loop of `build_sf_vs_residual_wall_curve` (lines 355-372),
synthesizing a cavity of diameter `dbh_cm * (1 - rw/100)` when positive. -/
def sf_at_rw (species : SpeciesPreset) (dbh_cm height_m crown_diameter_m design_wind_ms : ℝ)
    (fullness_override : Option ℝ) (site_factor k_defect : ℝ) (rw : ℝ) : EReal :=
  let frac := rw / 100
  let cav_cm := dbh_cm * (1 - frac)
  let cavity_sim : Option ℝ := if 0 < cav_cm then some cav_cm else none
  (calculate_single species dbh_cm height_m crown_diameter_m design_wind_ms cavity_sim
    fullness_override site_factor k_defect).safety_factor

/-- The scan of lines 374-385 of the source: walk consecutive sample
pairs, skip pairs with a non-finite safety factor, and at the first pair
bracketing SF = 1 return the linearly interpolated residual wall percent,
clamped to the sampling window. -/
def find_critical_rw : List (ℝ × EReal) → Option ℝ
  | (x1, y1) :: (x2, y2) :: rest =>
    if (y1 ≠ ⊤ ∧ y1 ≠ ⊥ ∧ y2 ≠ ⊤ ∧ y2 ≠ ⊥) ∧
       ((1 ≤ y1 ∧ y2 ≤ 1) ∨ (y1 ≤ 1 ∧ 1 ≤ y2)) then
      some (max 20 (min 100 (x1 + (x2 - x1) *
        (if y2 = y1 then 0 else (1 - y1.toReal) / (y2.toReal - y1.toReal)))))
    else find_critical_rw ((x2, y2) :: rest)
  | _ => none

/-- Curve of safety factor versus residual wall percent
(`build_sf_vs_residual_wall_curve`): 9 samples of the percent in
[20, 100], the sign-change scan for the critical percent, and the
corresponding critical wall thickness in cm. -/
def build_sf_vs_residual_wall_curve (species : SpeciesPreset)
    (dbh_cm height_m crown_diameter_m design_wind_ms : ℝ)
    (fullness_override : Option ℝ) (site_factor k_defect : ℝ) :
    List ℝ × List EReal × Option ℝ × Option ℝ :=
  let xs := (List.range 9).map fun i => (20 : ℝ) + (100 - 20) * (i : ℝ) / (9 - 1)
  let ys := xs.map (sf_at_rw species dbh_cm height_m crown_diameter_m design_wind_ms
    fullness_override site_factor k_defect)
  let critical_rw := if 2 ≤ xs.length then find_critical_rw (xs.zip ys) else none
  let critical_wall_cm := critical_rw.map fun rw => dbh_cm * (rw / 100) / 2
  (xs, ys, critical_rw, critical_wall_cm)

/-! Basic unfolding lemmas for the fields of `calculate_single`. -/

theorem q_pa_def (sp : SpeciesPreset) (dbh h crown V : ℝ) (cav fo : Option ℝ) (site k : ℝ) :
    (calculate_single sp dbh h crown V cav fo site k).q_pa = dynamic_pressure site V := rfl

theorem wind_force_def (sp : SpeciesPreset) (dbh h crown V : ℝ) (cav fo : Option ℝ) (site k : ℝ) :
    (calculate_single sp dbh h crown V cav fo site k).wind_force_n =
      dynamic_pressure site V * sp.drag_coefficient * crown_area sp crown fo := rfl

theorem bending_moment_def (sp : SpeciesPreset) (dbh h crown V : ℝ) (cav fo : Option ℝ) (site k : ℝ) :
    (calculate_single sp dbh h crown V cav fo site k).bending_moment_nm =
      dynamic_pressure site V * sp.drag_coefficient * crown_area sp crown fo * (0.66 * h) := rfl

theorem bending_stress_def (sp : SpeciesPreset) (dbh h crown V : ℝ) (cav fo : Option ℝ) (site k : ℝ) :
    (calculate_single sp dbh h crown V cav fo site k).bending_stress_mpa =
      dynamic_pressure site V * sp.drag_coefficient * crown_area sp crown fo * (0.66 * h) /
        section_modulus dbh cav / 1e6 := rfl

theorem safety_factor_def (sp : SpeciesPreset) (dbh h crown V : ℝ) (cav fo : Option ℝ) (site k : ℝ) :
    (calculate_single sp dbh h crown V cav fo site k).safety_factor =
      if 0 < (calculate_single sp dbh h crown V cav fo site k).bending_stress_mpa then
        ((sp.fb_green_mpa * k / (calculate_single sp dbh h crown V cav fo site k).bending_stress_mpa : ℝ) : EReal)
      else ⊤ := rfl

theorem safety_factor_pos_eval (sp : SpeciesPreset) (dbh h crown V : ℝ) (cav fo : Option ℝ) (site k : ℝ)
    (hσ : 0 < (calculate_single sp dbh h crown V cav fo site k).bending_stress_mpa) :
    (calculate_single sp dbh h crown V cav fo site k).safety_factor =
      ((sp.fb_green_mpa * k / (calculate_single sp dbh h crown V cav fo site k).bending_stress_mpa : ℝ) : EReal) := by
  rw [safety_factor_def, if_pos hσ]

theorem safety_factor_top_eval (sp : SpeciesPreset) (dbh h crown V : ℝ) (cav fo : Option ℝ) (site k : ℝ)
    (hσ : ¬ 0 < (calculate_single sp dbh h crown V cav fo site k).bending_stress_mpa) :
    (calculate_single sp dbh h crown V cav fo site k).safety_factor = ⊤ := by
  rw [safety_factor_def, if_neg hσ]

/-! Geometry of the clamped inner diameter and the section modulus. -/

theorem d_inner_clamped_nonneg (dbh : ℝ) (hdbh : 0 < dbh) (cav : Option ℝ) :
    0 ≤ d_inner_clamped dbh cav := by
  cases cav with
  | none => simp [d_inner_clamped]
  | some c =>
    by_cases hc : 0 < c
    · by_cases hcd : dbh ≤ c <;> simp [d_inner_clamped, hc, hcd] <;> positivity
    · simp [d_inner_clamped, hc]

theorem d_inner_clamped_lt_outer (dbh : ℝ) (hdbh : 0 < dbh) (cav : Option ℝ) :
    d_inner_clamped dbh cav < dbh / 100 := by
  cases cav with
  | none => simp [d_inner_clamped]; positivity
  | some c =>
    by_cases hc : 0 < c
    · by_cases hcd : dbh ≤ c
      · simp only [d_inner_clamped, if_pos hc, if_pos hcd]
        rw [div_lt_div_iff_of_pos_right (by norm_num)]
        nlinarith
      · simp only [d_inner_clamped, if_pos hc, if_neg hcd]
        rw [div_lt_div_iff_of_pos_right (by norm_num)]
        linarith [not_le.mp hcd]
    · simp [d_inner_clamped, hc]; positivity

theorem section_modulus_pos (dbh : ℝ) (hdbh : 0 < dbh) (cav : Option ℝ) :
    0 < section_modulus dbh cav := by
  unfold section_modulus
  by_cases hdi : 0 < d_inner_clamped dbh cav
  · rw [if_pos hdi]
    have hlt : d_inner_clamped dbh cav ^ 4 < (dbh / 100) ^ 4 :=
      pow_lt_pow_left₀ (d_inner_clamped_lt_outer dbh hdbh cav)
        (d_inner_clamped_nonneg dbh hdbh cav) (by norm_num)
    have h1 : 0 < (dbh / 100) ^ 4 - d_inner_clamped dbh cav ^ 4 := by linarith
    have h2 : (0 : ℝ) < 32 * (dbh / 100) := by positivity
    positivity
  · rw [if_neg hdi]
    positivity

theorem section_modulus_none (dbh : ℝ) :
    section_modulus dbh none = Real.pi * (dbh / 100) ^ 3 / 32 := by
  simp [section_modulus, d_inner_clamped]

theorem section_modulus_hollow (dbh c : ℝ) (hc : 0 < c) (hcd : c < dbh) :
    section_modulus dbh (some c) =
      Real.pi * ((dbh / 100) ^ 4 - (c / 100) ^ 4) / (32 * (dbh / 100)) := by
  have hdi : d_inner_clamped dbh (some c) = c / 100 := by
    simp [d_inner_clamped, hc, not_le.mpr hcd]
  rw [section_modulus]
  simp only [hdi]
  rw [if_pos (by positivity)]

/-! Closed forms for the bending stress with the factor pi cancelled. -/

theorem bending_stress_solid (sp : SpeciesPreset) (dbh h crown V : ℝ) (fo : Option ℝ) (site k : ℝ)
    (hdbh : 0 < dbh) :
    (calculate_single sp dbh h crown V none fo site k).bending_stress_mpa =
      site * 0.5 * AIR_DENSITY * V * V * sp.drag_coefficient *
        ((crown / 2) * (crown / 2) * sp.crown_shape_factor *
          max 0.1 (min 1 (fo.getD sp.default_fullness))) * (0.66 * h) * 32 /
        ((dbh / 100) ^ 3 * 1e6) := by
  rw [bending_stress_def, section_modulus_none]
  unfold dynamic_pressure crown_area
  have hd : (dbh / 100 : ℝ) ≠ 0 := by positivity
  field_simp [Real.pi_ne_zero]
  ring

theorem bending_stress_hollow (sp : SpeciesPreset) (dbh h crown V c : ℝ) (fo : Option ℝ) (site k : ℝ)
    (hdbh : 0 < dbh) (hc : 0 < c) (hcd : c < dbh) :
    (calculate_single sp dbh h crown V (some c) fo site k).bending_stress_mpa =
      site * 0.5 * AIR_DENSITY * V * V * sp.drag_coefficient *
        ((crown / 2) * (crown / 2) * sp.crown_shape_factor *
          max 0.1 (min 1 (fo.getD sp.default_fullness))) * (0.66 * h) * (32 * (dbh / 100)) /
        (((dbh / 100) ^ 4 - (c / 100) ^ 4) * 1e6) := by
  rw [bending_stress_def, section_modulus_hollow dbh c hc hcd]
  unfold dynamic_pressure crown_area
  have hd : (dbh / 100 : ℝ) ≠ 0 := by positivity
  have hlt : (c / 100 : ℝ) ^ 4 < (dbh / 100) ^ 4 :=
    pow_lt_pow_left₀ (by linarith) (by positivity) (by norm_num)
  have hne : ((dbh / 100 : ℝ) ^ 4 - (c / 100) ^ 4) ≠ 0 := by linarith
  have h1 : Real.pi * ((dbh / 100) ^ 4 - (c / 100) ^ 4) / (32 * (dbh / 100)) * 1e6 ≠ 0 := by
    refine mul_ne_zero (div_ne_zero (mul_ne_zero Real.pi_ne_zero hne) (by positivity)) (by norm_num)
  have h2 : (((dbh / 100 : ℝ) ^ 4 - (c / 100) ^ 4) * 1e6) ≠ 0 := mul_ne_zero hne (by norm_num)
  rw [div_div, div_eq_div_iff h1 h2]
  field_simp
  ring

/-! Scaling of the bending stress in the wind speed. -/

theorem bending_stress_double (sp : SpeciesPreset) (dbh h crown V : ℝ) (cav fo : Option ℝ) (site k : ℝ) :
    (calculate_single sp dbh h crown (2 * V) cav fo site k).bending_stress_mpa =
      4 * (calculate_single sp dbh h crown V cav fo site k).bending_stress_mpa := by
  rw [bending_stress_def, bending_stress_def]
  unfold dynamic_pressure
  ring

theorem bending_stress_scale_sqrt (sp : SpeciesPreset) (dbh h crown V : ℝ) (cav fo : Option ℝ)
    (site k s : ℝ) (hs : 0 ≤ s) :
    (calculate_single sp dbh h crown (V * Real.sqrt s) cav fo site k).bending_stress_mpa =
      s * (calculate_single sp dbh h crown V cav fo site k).bending_stress_mpa := by
  rw [bending_stress_def, bending_stress_def]
  unfold dynamic_pressure
  have ht : Real.sqrt s * Real.sqrt s = s := Real.mul_self_sqrt hs
  linear_combination (site * 0.5 * AIR_DENSITY * V * V * sp.drag_coefficient *
    crown_area sp crown fo * (0.66 * h) / section_modulus dbh cav / 1e6) * ht

/-! Concrete evaluation at the spec's reference scenario: species
euc_typical, DBH 50 cm, height 18 m, crown 10 m, wind 40 m/s, no cavity,
default fullness, site factor 1, k_defect 1. -/

theorem scn40_q : (calculate_single euc_typical 50 18 10 40 none none 1 1).q_pa = 960 := by
  rw [q_pa_def]
  norm_num [dynamic_pressure, AIR_DENSITY]

theorem scn40_wind_force :
    (calculate_single euc_typical 50 18 10 40 none none 1 1).wind_force_n = 3780 * Real.pi := by
  rw [wind_force_def]
  simp only [dynamic_pressure, crown_area, AIR_DENSITY, euc_typical, Option.getD_none]
  rw [show (max 0.1 (min 1 (0.9 : ℝ))) = 0.9 by norm_num [min_def, max_def]]
  ring

theorem scn40_moment :
    (calculate_single euc_typical 50 18 10 40 none none 1 1).bending_moment_nm = 44906.4 * Real.pi := by
  rw [bending_moment_def]
  simp only [dynamic_pressure, crown_area, AIR_DENSITY, euc_typical, Option.getD_none]
  rw [show (max 0.1 (min 1 (0.9 : ℝ))) = 0.9 by norm_num [min_def, max_def]]
  ring

theorem scn40_stress :
    (calculate_single euc_typical 50 18 10 40 none none 1 1).bending_stress_mpa = 11.4960384 := by
  rw [bending_stress_solid euc_typical 50 18 10 40 none 1 1 (by norm_num)]
  simp only [euc_typical, AIR_DENSITY, Option.getD_none]
  rw [show (max 0.1 (min 1 (0.9 : ℝ))) = 0.9 by norm_num [min_def, max_def]]
  norm_num

theorem scn40_sf :
    (calculate_single euc_typical 50 18 10 40 none none 1 1).safety_factor =
      ((390625 / 128304 : ℝ) : EReal) := by
  rw [safety_factor_pos_eval euc_typical 50 18 10 40 none none 1 1
    (by rw [scn40_stress]; norm_num)]
  rw [scn40_stress]
  exact congrArg Real.toEReal (by norm_num [euc_typical])

/-- C1: the spec's concrete scenario claims q = 960 Pa, wind force about
47,500 N, moment about 564,400 N·m, stress about 45.99 MPa and SF about
0.761, all to about 2 significant figures. This is false: even with a
generous 10 percent tolerance, the code's wind force (3780 * pi, about
11,875 N) is nowhere near 47,500 N, because the spec's arithmetic chain
dropped the drag coefficient 0.25. -/
theorem c1_scenario_counterexample :
    ¬ ((calculate_single euc_typical 50 18 10 40 none none 1 1).q_pa = 960 ∧
       |(calculate_single euc_typical 50 18 10 40 none none 1 1).wind_force_n - 47500| ≤ 4750 ∧
       |(calculate_single euc_typical 50 18 10 40 none none 1 1).bending_moment_nm - 564400| ≤ 56440 ∧
       |(calculate_single euc_typical 50 18 10 40 none none 1 1).bending_stress_mpa - 45.99| ≤ 4.599 ∧
       |(calculate_single euc_typical 50 18 10 40 none none 1 1).safety_factor.toReal - 0.761| ≤ 0.0761) := by
  intro h
  have hF := h.2.1
  rw [scn40_wind_force, abs_le] at hF
  have hπ : Real.pi < 3.141593 := Real.pi_lt_d6
  linarith [hF.1]

/-- C1 (amended): at the spec's concrete scenario the engine returns
exactly q = 960 Pa, wind force 3780 * pi (about 11,875 N), bending moment
44906.4 * pi (about 141,078 N·m), bending stress exactly 11.4960384 MPa,
and safety factor exactly 35 / 11.4960384 = 390625/128304 (about 3.045).
The spec's intermediate values omitted the drag coefficient factor 0.25,
inflating force, moment and stress by 4 and deflating SF by 4. -/
theorem c1_scenario_amended :
    (calculate_single euc_typical 50 18 10 40 none none 1 1).q_pa = 960 ∧
    (calculate_single euc_typical 50 18 10 40 none none 1 1).wind_force_n = 3780 * Real.pi ∧
    |(calculate_single euc_typical 50 18 10 40 none none 1 1).wind_force_n - 11875| ≤ 1 ∧
    (calculate_single euc_typical 50 18 10 40 none none 1 1).bending_moment_nm = 44906.4 * Real.pi ∧
    |(calculate_single euc_typical 50 18 10 40 none none 1 1).bending_moment_nm - 141078| ≤ 1 ∧
    (calculate_single euc_typical 50 18 10 40 none none 1 1).bending_stress_mpa = 11.4960384 ∧
    (calculate_single euc_typical 50 18 10 40 none none 1 1).safety_factor =
      ((390625 / 128304 : ℝ) : EReal) ∧
    |(390625 / 128304 : ℝ) - 3.045| ≤ 0.001 := by
  have hπu : Real.pi < 3.141593 := Real.pi_lt_d6
  have hπl : 3.141592 < Real.pi := Real.pi_gt_d6
  refine ⟨scn40_q, scn40_wind_force, ?_, scn40_moment, ?_, scn40_stress, scn40_sf,
    by rw [abs_le]; norm_num⟩
  · rw [scn40_wind_force, abs_le]
    constructor <;> nlinarith
  · rw [scn40_moment, abs_le]
    constructor <;> nlinarith

/-- C2: for every input with positive dimensions and positive wind speed
whose bending stress is positive, doubling the wind speed and keeping all
other fields fixed yields a safety factor exactly one quarter of the
original: the original SF is some finite real s and the doubled-wind SF
is exactly s / 4. -/
theorem c2_double_wind_quarters_sf (sp : SpeciesPreset) (dbh h crown V : ℝ) (cav fo : Option ℝ)
    (site k : ℝ) (hdbh : 0 < dbh) (hh : 0 < h) (hcr : 0 < crown) (hV : 0 < V)
    (hσ : 0 < (calculate_single sp dbh h crown V cav fo site k).bending_stress_mpa) :
    ∃ s : ℝ,
      (calculate_single sp dbh h crown V cav fo site k).safety_factor = ((s : ℝ) : EReal) ∧
      (calculate_single sp dbh h crown (2 * V) cav fo site k).safety_factor =
        ((s / 4 : ℝ) : EReal) := by
  have hσ2 := bending_stress_double sp dbh h crown V cav fo site k
  refine ⟨sp.fb_green_mpa * k / (calculate_single sp dbh h crown V cav fo site k).bending_stress_mpa,
    safety_factor_pos_eval sp dbh h crown V cav fo site k hσ, ?_⟩
  rw [safety_factor_pos_eval sp dbh h crown (2 * V) cav fo site k (by rw [hσ2]; linarith)]
  rw [hσ2]
  exact congrArg Real.toEReal (by rw [div_div]; ring_nf)

/-- Closed witness for C2 at the reference scenario. -/
theorem c2_double_wind_quarters_sf_witness :
    ∃ s : ℝ,
      (calculate_single euc_typical 50 18 10 40 none none 1 1).safety_factor = ((s : ℝ) : EReal) ∧
      (calculate_single euc_typical 50 18 10 (2 * 40) none none 1 1).safety_factor =
        ((s / 4 : ℝ) : EReal) :=
  c2_double_wind_quarters_sf euc_typical 50 18 10 40 none none 1 1
    (by norm_num) (by norm_num) (by norm_num) (by norm_num)
    (by rw [scn40_stress]; norm_num)

/-- C3: the wind-to-failure estimator returns exactly
`V_design * sqrt(SF_design)` when the design safety factor is finite and
positive, returns none when the safety factor is infinite or nonpositive,
and re-running the engine at the returned wind speed yields a safety
factor of exactly 1 (the model uses exact real arithmetic, so the
floating-point tolerance of the claim is met exactly). -/
theorem c3_wind_to_failure_exact (sp : SpeciesPreset) (dbh h crown V : ℝ) (cav fo : Option ℝ)
    (site k : ℝ) :
    (((calculate_single sp dbh h crown V cav fo site k).safety_factor ≠ ⊤ ∧
      (calculate_single sp dbh h crown V cav fo site k).safety_factor ≠ ⊥ ∧
      0 < (calculate_single sp dbh h crown V cav fo site k).safety_factor) →
      estimate_wind_to_failure sp dbh h crown V cav fo site k =
        some (V * Real.sqrt (calculate_single sp dbh h crown V cav fo site k).safety_factor.toReal)) ∧
    (((calculate_single sp dbh h crown V cav fo site k).safety_factor = ⊤ ∨
      (calculate_single sp dbh h crown V cav fo site k).safety_factor ≤ 0) →
      estimate_wind_to_failure sp dbh h crown V cav fo site k = none) ∧
    (∀ v, estimate_wind_to_failure sp dbh h crown V cav fo site k = some v →
      (calculate_single sp dbh h crown v cav fo site k).safety_factor = ((1 : ℝ) : EReal)) := by
  refine ⟨?_, ?_, ?_⟩
  · rintro ⟨h1, h2, h3⟩
    unfold estimate_wind_to_failure
    rw [if_neg]
    push_neg
    exact ⟨h1, h2, h3⟩
  · intro hor
    unfold estimate_wind_to_failure
    rw [if_pos]
    rcases hor with h | h
    · exact Or.inl h
    · exact Or.inr (Or.inr h)
  · intro v hv
    unfold estimate_wind_to_failure at hv
    by_cases hg : (calculate_single sp dbh h crown V cav fo site k).safety_factor = ⊤ ∨
        (calculate_single sp dbh h crown V cav fo site k).safety_factor = ⊥ ∨
        (calculate_single sp dbh h crown V cav fo site k).safety_factor ≤ 0
    · rw [if_pos hg] at hv
      exact absurd hv (by simp)
    · rw [if_neg hg] at hv
      have hveq : v = V * Real.sqrt (calculate_single sp dbh h crown V cav fo site k).safety_factor.toReal :=
        (Option.some.inj hv).symm
      push_neg at hg
      obtain ⟨hT, hB, hpos⟩ := hg
      by_cases hσ : 0 < (calculate_single sp dbh h crown V cav fo site k).bending_stress_mpa
      · have hsf := safety_factor_pos_eval sp dbh h crown V cav fo site k hσ
        have htr : (calculate_single sp dbh h crown V cav fo site k).safety_factor.toReal =
            sp.fb_green_mpa * k / (calculate_single sp dbh h crown V cav fo site k).bending_stress_mpa := by
          rw [hsf, EReal.toReal_coe]
        have hs : 0 < sp.fb_green_mpa * k /
            (calculate_single sp dbh h crown V cav fo site k).bending_stress_mpa := by
          rw [hsf] at hpos
          exact EReal.coe_pos.mp hpos
        have hfbk : 0 < sp.fb_green_mpa * k := by
          have hmm := mul_pos hs hσ
          rwa [div_mul_cancel₀ _ (ne_of_gt hσ)] at hmm
        have hσv : (calculate_single sp dbh h crown
            (V * Real.sqrt (sp.fb_green_mpa * k /
              (calculate_single sp dbh h crown V cav fo site k).bending_stress_mpa)) cav fo site k).bending_stress_mpa =
            sp.fb_green_mpa * k := by
          rw [bending_stress_scale_sqrt sp dbh h crown V cav fo site k _ hs.le,
            div_mul_cancel₀ _ (ne_of_gt hσ)]
        rw [hveq, htr]
        rw [safety_factor_pos_eval _ _ _ _ _ _ _ _ _ (by rw [hσv]; exact hfbk)]
        rw [hσv, div_self (ne_of_gt hfbk)]
      · exact absurd (safety_factor_top_eval sp dbh h crown V cav fo site k hσ) hT

/-- Closed witness for C3 at the reference scenario: re-running the engine
at the estimated failure wind speed gives SF exactly 1. -/
theorem c3_wind_to_failure_exact_witness :
    (calculate_single euc_typical 50 18 10 (40 * Real.sqrt (390625 / 128304)) none none 1 1).safety_factor =
      ((1 : ℝ) : EReal) := by
  have hest := (c3_wind_to_failure_exact euc_typical 50 18 10 40 none none 1 1).1
    ⟨by rw [scn40_sf]; exact EReal.coe_ne_top _,
     by rw [scn40_sf]; exact EReal.coe_ne_bot _,
     by rw [scn40_sf]; exact EReal.coe_pos.mpr (by norm_num)⟩
  rw [scn40_sf, EReal.toReal_coe] at hest
  exact (c3_wind_to_failure_exact euc_typical 50 18 10 40 none none 1 1).2.2 _ hest

set_option maxHeartbeats 1600000 in
/-- C4: for every combination of the five defect flags, the defect
strength factor equals the product of the per-flag penalties (0.8, 0.8,
0.9, 0.8, 0.9) clamped to [0.3, 1]; it is exactly 1 when all flags are
false; and it equals the clamped product of the penalty list in any
order, so the order of application does not matter. -/
theorem c4_defect_factor (b c cr ba u : Bool) :
    compute_defect_strength_factor b c cr ba u =
      max 0.3 (min 1 ((if b then (0.8 : ℝ) else 1) * (if c then (0.8 : ℝ) else 1) *
        (if cr then (0.9 : ℝ) else 1) * (if ba then (0.8 : ℝ) else 1) *
        (if u then (0.9 : ℝ) else 1))) ∧
    compute_defect_strength_factor false false false false false = 1 ∧
    ∀ l : List ℝ, l.Perm (spec_defect_penalties b c cr ba u) →
      compute_defect_strength_factor b c cr ba u = max 0.3 (min 1 l.prod) := by
  refine ⟨?_, ?_, ?_⟩
  · cases b <;> cases c <;> cases cr <;> cases ba <;> cases u <;>
      norm_num [compute_defect_strength_factor, min_def, max_def]
  · norm_num [compute_defect_strength_factor, min_def, max_def]
  · intro l hl
    rw [List.Perm.prod_eq hl]
    cases b <;> cases c <;> cases cr <;> cases ba <;> cases u <;>
      norm_num [compute_defect_strength_factor, spec_defect_penalties, min_def, max_def]

/-- Closed witness for C4: a reordered penalty list gives the same
clamped-product value. -/
theorem c4_defect_factor_witness :
    compute_defect_strength_factor false true false false true =
      max 0.3 (min 1 ([(0.9 : ℝ), 0.8]).prod) := by
  refine (c4_defect_factor false true false false true).2.2 [0.9, 0.8] ?_
  have hpen : spec_defect_penalties false true false false true = [0.8, 0.9] := rfl
  rw [hpen]
  exact List.Perm.swap 0.8 0.9 []

theorem calculate_single_cavity_clamp (sp : SpeciesPreset) (dbh h crown V c : ℝ) (fo : Option ℝ)
    (site k : ℝ) (hdbh : 0 < dbh) (hc : dbh ≤ c) :
    calculate_single sp dbh h crown V (some c) fo site k =
      calculate_single sp dbh h crown V (some (dbh * 0.99)) fo site k := by
  have hc0 : 0 < c := lt_of_lt_of_le hdbh hc
  have h99pos : (0 : ℝ) < dbh * 0.99 := by nlinarith
  have h99 : ¬ dbh ≤ dbh * 0.99 := by nlinarith
  have hdi : d_inner_clamped dbh (some c) = d_inner_clamped dbh (some (dbh * 0.99)) := by
    simp [d_inner_clamped, hc0, hc, h99, h99pos]
  have hW : section_modulus dbh (some c) = section_modulus dbh (some (dbh * 0.99)) := by
    unfold section_modulus
    rw [hdi]
  unfold calculate_single
  rw [hW]

theorem residual_wall_fraction_clamp (dbh c : ℝ) (hdbh : 0 < dbh) (hc : dbh ≤ c) :
    residual_wall_fraction dbh (some c) = residual_wall_fraction dbh (some (dbh * 0.99)) := by
  have hc0 : 0 < c := lt_of_lt_of_le hdbh hc
  have h99pos : (0 : ℝ) < dbh * 0.99 := by nlinarith
  have h99 : ¬ dbh ≤ dbh * 0.99 := by nlinarith
  simp [residual_wall_fraction, not_le.mpr hdbh, not_le.mpr hc0, not_le.mpr h99pos, hc, h99]

/-- C6: a supplied cavity at least as large as the trunk diameter is
silently clamped: the result is identical to the one for a cavity of 99
percent of the trunk diameter, and the residual wall fraction applies
the same clamp. -/
theorem c6_cavity_clamped (sp : SpeciesPreset) (dbh h crown V c : ℝ) (fo : Option ℝ) (site k : ℝ)
    (hdbh : 0 < dbh) (hc : dbh ≤ c) :
    calculate_single sp dbh h crown V (some c) fo site k =
      calculate_single sp dbh h crown V (some (dbh * 0.99)) fo site k ∧
    residual_wall_fraction dbh (some c) = residual_wall_fraction dbh (some (dbh * 0.99)) :=
  ⟨calculate_single_cavity_clamp sp dbh h crown V c fo site k hdbh hc,
   residual_wall_fraction_clamp dbh c hdbh hc⟩

/-- Closed witness for C6 at a concrete oversized cavity. -/
theorem c6_cavity_clamped_witness :
    calculate_single euc_typical 50 18 10 40 (some 60) none 1 1 =
      calculate_single euc_typical 50 18 10 40 (some (50 * 0.99)) none 1 1 ∧
    residual_wall_fraction 50 (some 60) = residual_wall_fraction 50 (some (50 * 0.99)) :=
  c6_cavity_clamped euc_typical 50 18 10 40 60 none 1 1 (by norm_num) (by norm_num)

/-- C7: for valid input (positive dimensions and wind, positive strength
and defect factor, catalog invariants on drag and shape, positive site
factor) the bending stress is nonnegative, and the safety factor is
either a strictly positive finite real or the top element, with the top
element occurring exactly when the bending stress is not positive. -/
theorem c7_sf_positive_or_top (sp : SpeciesPreset) (dbh h crown V : ℝ) (cav fo : Option ℝ)
    (site k : ℝ) (hdbh : 0 < dbh) (hh : 0 < h) (hcr : 0 < crown) (hV : 0 < V)
    (hfb : 0 < sp.fb_green_mpa) (hk : 0 < k) (hsite : 0 < site)
    (hdrag : 0 < sp.drag_coefficient) (hshape : 0 ≤ sp.crown_shape_factor) :
    0 ≤ (calculate_single sp dbh h crown V cav fo site k).bending_stress_mpa ∧
    ((∃ s : ℝ, (calculate_single sp dbh h crown V cav fo site k).safety_factor = ((s : ℝ) : EReal) ∧
        0 < s) ∨
      (calculate_single sp dbh h crown V cav fo site k).safety_factor = ⊤) ∧
    ((calculate_single sp dbh h crown V cav fo site k).safety_factor = ⊤ ↔
      ¬ 0 < (calculate_single sp dbh h crown V cav fo site k).bending_stress_mpa) := by
  have hW := section_modulus_pos dbh hdbh cav
  have hq : 0 ≤ dynamic_pressure site V := by
    unfold dynamic_pressure
    exact mul_nonneg (mul_nonneg (mul_nonneg (mul_nonneg hsite.le (by norm_num))
      (by norm_num [AIR_DENSITY])) hV.le) hV.le
  have hA : 0 ≤ crown_area sp crown fo := by
    unfold crown_area
    have hf : (0 : ℝ) ≤ max 0.1 (min 1 (fo.getD sp.default_fullness)) :=
      le_trans (by norm_num) (le_max_left _ _)
    exact mul_nonneg (mul_nonneg (mul_nonneg (mul_nonneg Real.pi_pos.le (by linarith))
      (by linarith)) hshape) hf
  have hσ0 : 0 ≤ (calculate_single sp dbh h crown V cav fo site k).bending_stress_mpa := by
    rw [bending_stress_def]
    have hnum : 0 ≤ dynamic_pressure site V * sp.drag_coefficient * crown_area sp crown fo *
        (0.66 * h) :=
      mul_nonneg (mul_nonneg (mul_nonneg hq hdrag.le) hA) (by linarith)
    exact div_nonneg (div_nonneg hnum hW.le) (by norm_num)
  refine ⟨hσ0, ?_, ?_⟩
  · by_cases hσ : 0 < (calculate_single sp dbh h crown V cav fo site k).bending_stress_mpa
    · exact Or.inl ⟨sp.fb_green_mpa * k / (calculate_single sp dbh h crown V cav fo site k).bending_stress_mpa,
        safety_factor_pos_eval sp dbh h crown V cav fo site k hσ,
        div_pos (mul_pos hfb hk) hσ⟩
    · exact Or.inr (safety_factor_top_eval sp dbh h crown V cav fo site k hσ)
  · constructor
    · intro htop hσ
      rw [safety_factor_pos_eval sp dbh h crown V cav fo site k hσ] at htop
      exact EReal.coe_ne_top _ htop
    · exact safety_factor_top_eval sp dbh h crown V cav fo site k

/-- Closed witness for C7 at the reference scenario. -/
theorem c7_sf_positive_or_top_witness :
    0 ≤ (calculate_single euc_typical 50 18 10 40 none none 1 1).bending_stress_mpa ∧
    ((∃ s : ℝ, (calculate_single euc_typical 50 18 10 40 none none 1 1).safety_factor = ((s : ℝ) : EReal) ∧
        0 < s) ∨
      (calculate_single euc_typical 50 18 10 40 none none 1 1).safety_factor = ⊤) ∧
    ((calculate_single euc_typical 50 18 10 40 none none 1 1).safety_factor = ⊤ ↔
      ¬ 0 < (calculate_single euc_typical 50 18 10 40 none none 1 1).bending_stress_mpa) :=
  c7_sf_positive_or_top euc_typical 50 18 10 40 none none 1 1
    (by norm_num) (by norm_num) (by norm_num) (by norm_num)
    (by norm_num [euc_typical]) (by norm_num) (by norm_num)
    (by norm_num [euc_typical]) (by norm_num [euc_typical])

/-- C8: for inputs satisfying the record invariants the clamped inner
diameter stays strictly below the outer diameter, the section modulus
divisor is strictly positive, and the division defining the stress
recovers the bending moment, so the computation is total. -/
theorem c8_division_safe (sp : SpeciesPreset) (dbh h crown V : ℝ) (cav fo : Option ℝ)
    (site k : ℝ) (hdbh : 0 < dbh) (hh : 0 < h) (hcr : 0 < crown) (hV : 0 < V) :
    0 ≤ d_inner_clamped dbh cav ∧
    d_inner_clamped dbh cav < dbh / 100 ∧
    0 < section_modulus dbh cav ∧
    (calculate_single sp dbh h crown V cav fo site k).bending_stress_mpa *
        (section_modulus dbh cav * 1e6) =
      (calculate_single sp dbh h crown V cav fo site k).bending_moment_nm := by
  have hW := section_modulus_pos dbh hdbh cav
  refine ⟨d_inner_clamped_nonneg dbh hdbh cav, d_inner_clamped_lt_outer dbh hdbh cav, hW, ?_⟩
  rw [bending_stress_def, bending_moment_def, div_div, div_mul_cancel₀]
  exact mul_ne_zero (ne_of_gt hW) (by norm_num)

/-- Closed witness for C8 at a concrete hollow input. -/
theorem c8_division_safe_witness :
    0 ≤ d_inner_clamped 50 (some 20) ∧
    d_inner_clamped 50 (some 20) < 50 / 100 ∧
    0 < section_modulus 50 (some 20) ∧
    (calculate_single euc_typical 50 18 10 40 (some 20) none 1 1).bending_stress_mpa *
        (section_modulus 50 (some 20) * 1e6) =
      (calculate_single euc_typical 50 18 10 40 (some 20) none 1 1).bending_moment_nm :=
  c8_division_safe euc_typical 50 18 10 40 (some 20) none 1 1
    (by norm_num) (by norm_num) (by norm_num) (by norm_num)

theorem sf_le_of_section_modulus_le (sp : SpeciesPreset) (dbh h crown V : ℝ)
    (cavA cavB fo : Option ℝ) (site k : ℝ)
    (hN : 0 < dynamic_pressure site V * sp.drag_coefficient * crown_area sp crown fo * (0.66 * h))
    (hfbk : 0 < sp.fb_green_mpa * k)
    (hWB : 0 < section_modulus dbh cavB)
    (hWle : section_modulus dbh cavB ≤ section_modulus dbh cavA) :
    (calculate_single sp dbh h crown V cavB fo site k).safety_factor ≤
      (calculate_single sp dbh h crown V cavA fo site k).safety_factor := by
  have hWA : 0 < section_modulus dbh cavA := lt_of_lt_of_le hWB hWle
  have hσA : 0 < (calculate_single sp dbh h crown V cavA fo site k).bending_stress_mpa := by
    rw [bending_stress_def]
    exact div_pos (div_pos hN hWA) (by norm_num)
  have hσB : 0 < (calculate_single sp dbh h crown V cavB fo site k).bending_stress_mpa := by
    rw [bending_stress_def]
    exact div_pos (div_pos hN hWB) (by norm_num)
  have hσle : (calculate_single sp dbh h crown V cavA fo site k).bending_stress_mpa ≤
      (calculate_single sp dbh h crown V cavB fo site k).bending_stress_mpa := by
    rw [bending_stress_def, bending_stress_def]
    exact (div_le_div_iff_of_pos_right (by norm_num)).mpr
      (div_le_div_of_nonneg_left hN.le hWB hWle)
  rw [safety_factor_pos_eval sp dbh h crown V cavA fo site k hσA,
    safety_factor_pos_eval sp dbh h crown V cavB fo site k hσB]
  exact EReal.coe_le_coe_iff.mpr (div_le_div_of_nonneg_left hfbk.le hσA hσle)

/-- C9 (amended): with valid inputs, the safety factor is non-increasing
in the cavity inner diameter on the unclamped range 0 < c1 ≤ c2 < DBH,
and any supplied positive cavity yields a safety factor at most the
no-cavity one. The original claim over all 0 < c1 ≤ c2 fails at the
clamp: a cavity of at least the trunk diameter is replaced by 99 percent
of the trunk diameter, which can be smaller than an unclamped c1. -/
theorem c9_sf_antitone_in_cavity (sp : SpeciesPreset) (dbh h crown V : ℝ) (fo : Option ℝ)
    (site k : ℝ) (hdbh : 0 < dbh) (hh : 0 < h) (hcr : 0 < crown) (hV : 0 < V)
    (hsite : 0 < site) (hdrag : 0 < sp.drag_coefficient) (hshape : 0 < sp.crown_shape_factor)
    (hfb : 0 < sp.fb_green_mpa) (hk : 0 < k) :
    (∀ c1 c2 : ℝ, 0 < c1 → c1 ≤ c2 → c2 < dbh →
      (calculate_single sp dbh h crown V (some c2) fo site k).safety_factor ≤
        (calculate_single sp dbh h crown V (some c1) fo site k).safety_factor) ∧
    (∀ c : ℝ, 0 < c →
      (calculate_single sp dbh h crown V (some c) fo site k).safety_factor ≤
        (calculate_single sp dbh h crown V none fo site k).safety_factor) := by
  have hq : 0 < dynamic_pressure site V := by
    unfold dynamic_pressure
    have : (0 : ℝ) < AIR_DENSITY := by norm_num [AIR_DENSITY]
    positivity
  have hA : 0 < crown_area sp crown fo := by
    unfold crown_area
    have hf : (0 : ℝ) < max 0.1 (min 1 (fo.getD sp.default_fullness)) :=
      lt_of_lt_of_le (by norm_num) (le_max_left _ _)
    have hπ := Real.pi_pos
    positivity
  have hN : 0 < dynamic_pressure site V * sp.drag_coefficient * crown_area sp crown fo *
      (0.66 * h) := by positivity
  have hfbk : 0 < sp.fb_green_mpa * k := mul_pos hfb hk
  constructor
  · intro c1 c2 hc1 h12 h2d
    refine sf_le_of_section_modulus_le sp dbh h crown V (some c1) (some c2) fo site k hN hfbk
      (section_modulus_pos dbh hdbh (some c2)) ?_
    rw [section_modulus_hollow dbh c1 hc1 (lt_of_le_of_lt h12 h2d),
      section_modulus_hollow dbh c2 (lt_of_lt_of_le hc1 h12) h2d]
    have hp : (c1 / 100 : ℝ) ^ 4 ≤ (c2 / 100) ^ 4 :=
      pow_le_pow_left₀ (by positivity) (by linarith) 4
    have h32d : (0 : ℝ) < 32 * (dbh / 100) := by positivity
    refine (div_le_div_iff_of_pos_right h32d).mpr ?_
    have := Real.pi_pos
    nlinarith
  · intro c hc
    refine sf_le_of_section_modulus_le sp dbh h crown V none (some c) fo site k hN hfbk
      (section_modulus_pos dbh hdbh (some c)) ?_
    have hdi : 0 < d_inner_clamped dbh (some c) := by
      by_cases hcd : dbh ≤ c <;> simp [d_inner_clamped, hc, hcd] <;> positivity
    have hWc : section_modulus dbh (some c) =
        Real.pi * ((dbh / 100) ^ 4 - d_inner_clamped dbh (some c) ^ 4) / (32 * (dbh / 100)) := by
      unfold section_modulus
      rw [if_pos hdi]
    rw [hWc, section_modulus_none]
    have hd : (0 : ℝ) < dbh / 100 := by positivity
    have hstep : Real.pi * (dbh / 100) ^ 3 / 32 =
        Real.pi * (dbh / 100) ^ 4 / (32 * (dbh / 100)) := by
      field_simp
      ring
    rw [hstep]
    refine (div_le_div_iff_of_pos_right (by positivity)).mpr ?_
    have h4 : 0 ≤ d_inner_clamped dbh (some c) ^ 4 :=
      pow_nonneg (d_inner_clamped_nonneg dbh hdbh (some c)) 4
    have := Real.pi_pos
    nlinarith

/-- Closed witness for C9 at concrete unclamped cavities and at a
concrete cavity against the solid section. -/
theorem c9_sf_antitone_in_cavity_witness :
    (calculate_single euc_typical 50 18 10 40 (some 30) none 1 1).safety_factor ≤
      (calculate_single euc_typical 50 18 10 40 (some 20) none 1 1).safety_factor ∧
    (calculate_single euc_typical 50 18 10 40 (some 10) none 1 1).safety_factor ≤
      (calculate_single euc_typical 50 18 10 40 none none 1 1).safety_factor := by
  have hmain := c9_sf_antitone_in_cavity euc_typical 50 18 10 40 none 1 1
    (by norm_num) (by norm_num) (by norm_num) (by norm_num) (by norm_num)
    (by norm_num [euc_typical]) (by norm_num [euc_typical]) (by norm_num [euc_typical])
    (by norm_num)
  exact ⟨hmain.1 20 30 (by norm_num) (by norm_num) (by norm_num), hmain.2 10 (by norm_num)⟩

/-- C9: the claim that the safety factor is non-increasing in the cavity
diameter for every pair 0 < c1 ≤ c2 is false at the clamp boundary: at
DBH 50 cm, a cavity of 49.9 cm is used as is, while a cavity of 50 cm is
clamped down to 49.5 cm, so the larger requested cavity leaves more wall
and a strictly larger safety factor. -/
theorem c9_sf_antitone_in_cavity_counterexample :
    ¬ ((calculate_single euc_typical 50 18 10 40 (some 50) none 1 1).safety_factor ≤
       (calculate_single euc_typical 50 18 10 40 (some 49.9) none 1 1).safety_factor) := by
  intro hle
  have hB : 0 < (calculate_single euc_typical 50 18 10 40 (some (50 * 0.99)) none 1 1).bending_stress_mpa := by
    rw [bending_stress_hollow euc_typical 50 18 10 40 (50 * 0.99) none 1 1
      (by norm_num) (by norm_num) (by norm_num)]
    simp only [euc_typical, AIR_DENSITY, Option.getD_none]
    rw [show max 0.1 (min 1 (0.9 : ℝ)) = 0.9 by norm_num [min_def, max_def]]
    norm_num
  have hA : 0 < (calculate_single euc_typical 50 18 10 40 (some 49.9) none 1 1).bending_stress_mpa := by
    rw [bending_stress_hollow euc_typical 50 18 10 40 49.9 none 1 1
      (by norm_num) (by norm_num) (by norm_num)]
    simp only [euc_typical, AIR_DENSITY, Option.getD_none]
    rw [show max 0.1 (min 1 (0.9 : ℝ)) = 0.9 by norm_num [min_def, max_def]]
    norm_num
  rw [calculate_single_cavity_clamp euc_typical 50 18 10 40 50 none 1 1
    (by norm_num) (by norm_num)] at hle
  rw [safety_factor_pos_eval euc_typical 50 18 10 40 (some (50 * 0.99)) none 1 1 hB,
    safety_factor_pos_eval euc_typical 50 18 10 40 (some 49.9) none 1 1 hA] at hle
  rw [EReal.coe_le_coe_iff] at hle
  rw [bending_stress_hollow euc_typical 50 18 10 40 (50 * 0.99) none 1 1
      (by norm_num) (by norm_num) (by norm_num),
    bending_stress_hollow euc_typical 50 18 10 40 49.9 none 1 1
      (by norm_num) (by norm_num) (by norm_num)] at hle
  simp only [euc_typical, AIR_DENSITY, Option.getD_none] at hle
  rw [show max 0.1 (min 1 (0.9 : ℝ)) = 0.9 by norm_num [min_def, max_def]] at hle
  norm_num at hle

theorem find_critical_rw_cons_pos (x1 x2 : ℝ) (y1 y2 : EReal) (rest : List (ℝ × EReal))
    (hcond : (y1 ≠ ⊤ ∧ y1 ≠ ⊥ ∧ y2 ≠ ⊤ ∧ y2 ≠ ⊥) ∧
      ((1 ≤ y1 ∧ y2 ≤ 1) ∨ (y1 ≤ 1 ∧ 1 ≤ y2))) :
    find_critical_rw ((x1, y1) :: (x2, y2) :: rest) =
      some (max 20 (min 100 (x1 + (x2 - x1) *
        (if y2 = y1 then 0 else (1 - y1.toReal) / (y2.toReal - y1.toReal))))) := by
  rw [find_critical_rw]
  exact if_pos hcond

theorem find_critical_rw_bounds (l : List (ℝ × EReal)) (x : ℝ)
    (hx : find_critical_rw l = some x) : 20 ≤ x ∧ x ≤ 100 := by
  induction l with
  | nil => simp [find_critical_rw] at hx
  | cons p tl ih =>
    cases tl with
    | nil =>
      obtain ⟨x1, y1⟩ := p
      simp [find_critical_rw] at hx
    | cons q rest =>
      obtain ⟨x1, y1⟩ := p
      obtain ⟨x2, y2⟩ := q
      rw [find_critical_rw] at hx
      split at hx
      · have hxval := Option.some.inj hx
        refine ⟨?_, ?_⟩
        · rw [← hxval]
          exact le_max_left _ _
        · rw [← hxval]
          exact max_le (by norm_num) (min_le_left _ _)
      · exact ih hx

/-! Concrete evaluation of the residual-wall curve at the scenario
euc_typical, DBH 50 cm, height 18 m, crown 10 m, wind 60 m/s, default
fullness, site factor 1, k_defect 1: the scan finds a sign change on the
first sampled pair (20 percent, 30 percent). -/

theorem scn60_sf20 :
    sf_at_rw euc_typical 50 18 10 60 none 1 1 20 = ((25625 / 32076 : ℝ) : EReal) := by
  simp only [sf_at_rw]
  rw [if_pos (show (0 : ℝ) < 50 * (1 - 20 / 100) by norm_num)]
  have hσ : 0 < (calculate_single euc_typical 50 18 10 60 (some (50 * (1 - 20 / 100))) none 1 1).bending_stress_mpa := by
    rw [bending_stress_hollow euc_typical 50 18 10 60 (50 * (1 - 20 / 100)) none 1 1
      (by norm_num) (by norm_num) (by norm_num)]
    simp only [euc_typical, AIR_DENSITY, Option.getD_none]
    rw [show max 0.1 (min 1 (0.9 : ℝ)) = 0.9 by norm_num [min_def, max_def]]
    norm_num
  rw [safety_factor_pos_eval euc_typical 50 18 10 60 (some (50 * (1 - 20 / 100))) none 1 1 hσ]
  rw [bending_stress_hollow euc_typical 50 18 10 60 (50 * (1 - 20 / 100)) none 1 1
    (by norm_num) (by norm_num) (by norm_num)]
  simp only [euc_typical, AIR_DENSITY, Option.getD_none]
  rw [show max 0.1 (min 1 (0.9 : ℝ)) = 0.9 by norm_num [min_def, max_def]]
  exact congrArg Real.toEReal (by norm_num)

theorem scn60_sf30 :
    sf_at_rw euc_typical 50 18 10 60 none 1 1 30 = ((1583125 / 1539648 : ℝ) : EReal) := by
  simp only [sf_at_rw]
  rw [if_pos (show (0 : ℝ) < 50 * (1 - 30 / 100) by norm_num)]
  have hσ : 0 < (calculate_single euc_typical 50 18 10 60 (some (50 * (1 - 30 / 100))) none 1 1).bending_stress_mpa := by
    rw [bending_stress_hollow euc_typical 50 18 10 60 (50 * (1 - 30 / 100)) none 1 1
      (by norm_num) (by norm_num) (by norm_num)]
    simp only [euc_typical, AIR_DENSITY, Option.getD_none]
    rw [show max 0.1 (min 1 (0.9 : ℝ)) = 0.9 by norm_num [min_def, max_def]]
    norm_num
  rw [safety_factor_pos_eval euc_typical 50 18 10 60 (some (50 * (1 - 30 / 100))) none 1 1 hσ]
  rw [bending_stress_hollow euc_typical 50 18 10 60 (50 * (1 - 30 / 100)) none 1 1
    (by norm_num) (by norm_num) (by norm_num)]
  simp only [euc_typical, AIR_DENSITY, Option.getD_none]
  rw [show max 0.1 (min 1 (0.9 : ℝ)) = 0.9 by norm_num [min_def, max_def]]
  exact congrArg Real.toEReal (by norm_num)

theorem scn60_crit :
    (build_sf_vs_residual_wall_curve euc_typical 50 18 10 60 none 1 1).2.2.1 =
      some (2031796 / 70625) := by
  have hrange : List.range 9 = [0, 1, 2, 3, 4, 5, 6, 7, 8] := rfl
  have hxs : (List.range 9).map (fun i => (20 : ℝ) + (100 - 20) * (i : ℝ) / (9 - 1)) =
      [20, 30, 40, 50, 60, 70, 80, 90, 100] := by
    rw [hrange]
    norm_num [List.map_cons, List.map_nil]
  simp only [build_sf_vs_residual_wall_curve]
  rw [hxs]
  rw [if_pos (show 2 ≤ ([20, 30, 40, 50, 60, 70, 80, 90, 100] : List ℝ).length by simp)]
  simp only [List.map_cons, List.zip_cons_cons]
  rw [scn60_sf20, scn60_sf30]
  rw [find_critical_rw_cons_pos 20 30 ((25625 / 32076 : ℝ) : EReal) ((1583125 / 1539648 : ℝ) : EReal) _
    ⟨⟨EReal.coe_ne_top _, EReal.coe_ne_bot _, EReal.coe_ne_top _, EReal.coe_ne_bot _⟩,
     Or.inr ⟨by rw [← EReal.coe_one]; exact EReal.coe_le_coe_iff.mpr (by norm_num),
       by rw [← EReal.coe_one]; exact EReal.coe_le_coe_iff.mpr (by norm_num)⟩⟩]
  rw [if_neg (show ¬ ((1583125 / 1539648 : ℝ) : EReal) = ((25625 / 32076 : ℝ) : EReal) from
    fun hcontra => by rw [EReal.coe_eq_coe_iff] at hcontra; norm_num at hcontra)]
  simp only [EReal.toReal_coe]
  rw [show (20 : ℝ) + (30 - 20) * ((1 - 25625 / 32076) / (1583125 / 1539648 - 25625 / 32076)) =
    2031796 / 70625 by norm_num]
  rw [show min 100 (2031796 / 70625 : ℝ) = 2031796 / 70625 by norm_num [min_def]]
  rw [show max 20 (2031796 / 70625 : ℝ) = 2031796 / 70625 by norm_num [max_def]]

/-! A second concrete scenario for the residual-wall curve: same tree at
wind 60 m/s but site factor 25625/32076 (about 0.799, inside the nominal
0.5 to 1.5 range), tuned so that the safety factor at the 20 percent
sample is exactly 1; the scan then returns exactly the endpoint 20. -/

theorem scn60s_sf20 :
    sf_at_rw euc_typical 50 18 10 60 none (25625 / 32076) 1 20 = ((1 : ℝ) : EReal) := by
  simp only [sf_at_rw]
  rw [if_pos (show (0 : ℝ) < 50 * (1 - 20 / 100) by norm_num)]
  have hσ : 0 < (calculate_single euc_typical 50 18 10 60 (some (50 * (1 - 20 / 100))) none
      (25625 / 32076) 1).bending_stress_mpa := by
    rw [bending_stress_hollow euc_typical 50 18 10 60 (50 * (1 - 20 / 100)) none (25625 / 32076) 1
      (by norm_num) (by norm_num) (by norm_num)]
    simp only [euc_typical, AIR_DENSITY, Option.getD_none]
    rw [show max 0.1 (min 1 (0.9 : ℝ)) = 0.9 by norm_num [min_def, max_def]]
    norm_num
  rw [safety_factor_pos_eval euc_typical 50 18 10 60 (some (50 * (1 - 20 / 100))) none
    (25625 / 32076) 1 hσ]
  rw [bending_stress_hollow euc_typical 50 18 10 60 (50 * (1 - 20 / 100)) none (25625 / 32076) 1
    (by norm_num) (by norm_num) (by norm_num)]
  simp only [euc_typical, AIR_DENSITY, Option.getD_none]
  rw [show max 0.1 (min 1 (0.9 : ℝ)) = 0.9 by norm_num [min_def, max_def]]
  exact congrArg Real.toEReal (by norm_num)

theorem scn60s_sf30 :
    sf_at_rw euc_typical 50 18 10 60 none (25625 / 32076) 1 30 = ((2533 / 1968 : ℝ) : EReal) := by
  simp only [sf_at_rw]
  rw [if_pos (show (0 : ℝ) < 50 * (1 - 30 / 100) by norm_num)]
  have hσ : 0 < (calculate_single euc_typical 50 18 10 60 (some (50 * (1 - 30 / 100))) none
      (25625 / 32076) 1).bending_stress_mpa := by
    rw [bending_stress_hollow euc_typical 50 18 10 60 (50 * (1 - 30 / 100)) none (25625 / 32076) 1
      (by norm_num) (by norm_num) (by norm_num)]
    simp only [euc_typical, AIR_DENSITY, Option.getD_none]
    rw [show max 0.1 (min 1 (0.9 : ℝ)) = 0.9 by norm_num [min_def, max_def]]
    norm_num
  rw [safety_factor_pos_eval euc_typical 50 18 10 60 (some (50 * (1 - 30 / 100))) none
    (25625 / 32076) 1 hσ]
  rw [bending_stress_hollow euc_typical 50 18 10 60 (50 * (1 - 30 / 100)) none (25625 / 32076) 1
    (by norm_num) (by norm_num) (by norm_num)]
  simp only [euc_typical, AIR_DENSITY, Option.getD_none]
  rw [show max 0.1 (min 1 (0.9 : ℝ)) = 0.9 by norm_num [min_def, max_def]]
  exact congrArg Real.toEReal (by norm_num)

theorem scn60s_crit :
    (build_sf_vs_residual_wall_curve euc_typical 50 18 10 60 none (25625 / 32076) 1).2.2.1 =
      some 20 := by
  have hrange : List.range 9 = [0, 1, 2, 3, 4, 5, 6, 7, 8] := rfl
  have hxs : (List.range 9).map (fun i => (20 : ℝ) + (100 - 20) * (i : ℝ) / (9 - 1)) =
      [20, 30, 40, 50, 60, 70, 80, 90, 100] := by
    rw [hrange]
    norm_num [List.map_cons, List.map_nil]
  simp only [build_sf_vs_residual_wall_curve]
  rw [hxs]
  rw [if_pos (show 2 ≤ ([20, 30, 40, 50, 60, 70, 80, 90, 100] : List ℝ).length by simp)]
  simp only [List.map_cons, List.zip_cons_cons]
  rw [scn60s_sf20, scn60s_sf30]
  rw [find_critical_rw_cons_pos 20 30 ((1 : ℝ) : EReal) ((2533 / 1968 : ℝ) : EReal) _
    ⟨⟨EReal.coe_ne_top _, EReal.coe_ne_bot _, EReal.coe_ne_top _, EReal.coe_ne_bot _⟩,
     Or.inr ⟨by rw [← EReal.coe_one],
       by rw [← EReal.coe_one]; exact EReal.coe_le_coe_iff.mpr (by norm_num)⟩⟩]
  rw [if_neg (show ¬ ((2533 / 1968 : ℝ) : EReal) = ((1 : ℝ) : EReal) from
    fun hcontra => by rw [EReal.coe_eq_coe_iff] at hcontra; norm_num at hcontra)]
  simp only [EReal.toReal_coe]
  rw [show (20 : ℝ) + (30 - 20) * ((1 - 1) / (2533 / 1968 - 1)) = 20 by norm_num]
  rw [show min 100 (20 : ℝ) = 20 by norm_num [min_def]]
  rw [show max 20 (20 : ℝ) = 20 by norm_num [max_def]]

/-- C5: both halves of the claim fail on concrete valid inputs. At DBH
50 cm, height 18 m, crown 10 m, wind 60 m/s, site factor 1, the scan
interpolates the critical percent 2031796/70625 (about 28.77, so the
curve does return a critical value), but the directly recomputed safety
factor at the synthesized cavity 50*(1 - rw/100) exceeds 1 by more than
1/250 (it is about 1.00477): linear interpolation between samples 10
points apart does not invert the quartic dependence of SF on the
residual wall, refuting the within-floating-point-tolerance conjunct.
And at the same tree with site factor 25625/32076 (about 0.799, inside
the nominal range), the safety factor at the 20 percent sample is
exactly 1 and the scan returns exactly 20, an endpoint of [20, 100],
refuting the strictly-within conjunct. -/
theorem c5_critical_rw_counterexample :
    ((build_sf_vs_residual_wall_curve euc_typical 50 18 10 60 none 1 1).2.2.1 =
      some (2031796 / 70625) ∧
    ((1 + 1 / 250 : ℝ) : EReal) <
      (calculate_single euc_typical 50 18 10 60
        (some (50 * (1 - (2031796 / 70625 : ℝ) / 100))) none 1 1).safety_factor) ∧
    (build_sf_vs_residual_wall_curve euc_typical 50 18 10 60 none (25625 / 32076) 1).2.2.1 =
      some 20 := by
  refine ⟨⟨scn60_crit, ?_⟩, scn60s_crit⟩
  have hσ : 0 < (calculate_single euc_typical 50 18 10 60
      (some (50 * (1 - (2031796 / 70625 : ℝ) / 100))) none 1 1).bending_stress_mpa := by
    rw [bending_stress_hollow euc_typical 50 18 10 60 (50 * (1 - (2031796 / 70625 : ℝ) / 100))
      none 1 1 (by norm_num) (by norm_num) (by norm_num)]
    simp only [euc_typical, AIR_DENSITY, Option.getD_none]
    rw [show max 0.1 (min 1 (0.9 : ℝ)) = 0.9 by norm_num [min_def, max_def]]
    norm_num
  rw [safety_factor_pos_eval euc_typical 50 18 10 60
    (some (50 * (1 - (2031796 / 70625 : ℝ) / 100))) none 1 1 hσ]
  refine EReal.coe_lt_coe_iff.mpr ?_
  rw [bending_stress_hollow euc_typical 50 18 10 60 (50 * (1 - (2031796 / 70625 : ℝ) / 100))
    none 1 1 (by norm_num) (by norm_num) (by norm_num)]
  simp only [euc_typical, AIR_DENSITY, Option.getD_none]
  rw [show max 0.1 (min 1 (0.9 : ℝ)) = 0.9 by norm_num [min_def, max_def]]
  norm_num

/-- C5 (amended): whenever the residual-wall curve builder returns a
critical residual wall percent, that percent lies in the closed interval
[20, 100], where the endpoints can be attained (for instance when a
sample SF is exactly 1); and the safety factor recomputed directly at
that percent is only approximately 1, since the percent comes from
linear interpolation of SF between samples 10 percentage points apart,
and it can differ from 1.0 by far more than floating-point tolerance. -/
theorem c5_critical_rw_in_range (sp : SpeciesPreset) (dbh h crown V : ℝ) (fo : Option ℝ)
    (site k : ℝ) (x : ℝ)
    (hx : (build_sf_vs_residual_wall_curve sp dbh h crown V fo site k).2.2.1 = some x) :
    20 ≤ x ∧ x ≤ 100 := by
  simp only [build_sf_vs_residual_wall_curve] at hx
  split at hx
  · exact find_critical_rw_bounds _ x hx
  · exact absurd hx (by simp)

/-- Closed witness for the amended C5 at the wind-60 scenario. -/
theorem c5_critical_rw_in_range_witness :
    20 ≤ (2031796 / 70625 : ℝ) ∧ (2031796 / 70625 : ℝ) ≤ 100 :=
  c5_critical_rw_in_range euc_typical 50 18 10 60 none 1 1 _ scn60_crit

/-- C10: the SF-versus-wind curve builder returns the empty pair of lists
whenever the design wind speed is nonpositive. -/
theorem c10_wind_curve_empty (sp : SpeciesPreset) (dbh h crown V : ℝ) (cav fo : Option ℝ)
    (site k : ℝ) (wtf : Option ℝ) (hV : V ≤ 0) :
    build_sf_vs_wind_curve sp dbh h crown V cav fo site k wtf = ([], []) := by
  unfold build_sf_vs_wind_curve
  rw [if_pos hV]

/-- Closed witness for C10 at design wind speed zero. -/
theorem c10_wind_curve_empty_witness :
    build_sf_vs_wind_curve euc_typical 50 18 10 0 none none 1 1 none = ([], []) :=
  c10_wind_curve_empty euc_typical 50 18 10 0 none none 1 1 none (by norm_num)

end

end AusTreeCalc
